import Mathlib

set_option maxRecDepth 65536

/-!
Shallow embedding of the go-github-mcp server (`github_service.go` and the
`main.go` tool registration): a GitHub MCP adapter with three tool handlers.
The two network effects (the REST `Search.Issues` call and the GraphQL
`prCommentsQuery`) are modelled as explicit function parameters supplied to
the handlers; everything else follows the Go source line by line.  Go strings
are embedded as Lean `String`; `len` on a Go string is UTF-8 byte length,
embedded as `String.utf8ByteSize`.
-/

namespace GoGithubMCP

/-- One review comment as returned by the GraphQL `prCommentsQuery`
(author login, body, file path, line, permalink URL, creation time). -/
structure Comment where
  authorLogin : String
  body : String
  path : String
  line : Int
  url : String
  createdAt : String
  deriving DecidableEq, Repr

/-- One review thread node of `prCommentsQuery`: the `isResolved` flag plus
the comment nodes (first 20, in server order). -/
structure ReviewThread where
  isResolved : Bool
  comments : List Comment
  deriving DecidableEq, Repr

/-- One issue of the REST search response, with the fields the handler
reads: `GetState`, `GetTitle`, `GetHTMLURL`. -/
structure Issue where
  state : String
  title : String
  htmlURL : String
  deriving DecidableEq, Repr

/-- The `mcp.CallToolResult` as the handlers build it: an error flag and the
single text content (`mcp.NewToolResultError` / `mcp.NewToolResultText`). -/
structure CallToolResult where
  isError : Bool
  text : String
  deriving DecidableEq, Repr

/-- mcp.NewToolResultError: a tool-level (recoverable) error payload. -/
def NewToolResultError (msg : String) : CallToolResult :=
  ⟨true, msg⟩

/-- mcp.NewToolResultText: a success payload. -/
def NewToolResultText (t : String) : CallToolResult :=
  ⟨false, t⟩

/-- The `mcp.CallToolRequest`, reduced to its string arguments (the only
kind these handlers read). -/
structure CallToolRequest where
  args : List (String × String)
  deriving DecidableEq, Repr

/-- req.GetString(key, default): the argument's value, or the default when
the argument is absent. -/
def CallToolRequest.getString (req : CallToolRequest) (key dflt : String) : String :=
  (List.lookup key req.args).getD dflt

/-- req.RequireString(key): `some` value, or `none` (an error in Go) when
the argument is absent. -/
def CallToolRequest.requireString (req : CallToolRequest) (key : String) : Option String :=
  List.lookup key req.args

/-- The `github.SearchOptions` fields set by `listPullRequestsHandler`. -/
structure SearchOptions where
  sort : String
  order : String
  perPage : Nat
  deriving DecidableEq, Repr

/-- Outcome of `s.restClient.Search.Issues`: a transport error (`err != nil`)
or a response carrying the HTTP status and the parsed body (`Total`,
`Issues`). -/
inductive SearchOutcome where
  | transportError (msg : String)
  | response (statusCode : Nat) (status : String) (total : Nat) (issues : List Issue)
  deriving DecidableEq, Repr

/-- Outcome of `s.graphqlClient.Query` with `prCommentsQuery`: an error
(`err != nil`) or the review-thread nodes of the response. -/
inductive QueryOutcome where
  | queryError (msg : String)
  | success (threads : List ReviewThread)
  deriving DecidableEq, Repr

/-- The search options literal of `listPullRequestsHandler`:
Sort "updated", Order "desc", PerPage 15. -/
def listPRSearchOpts : SearchOptions :=
  ⟨"updated", "desc", 15⟩

/-- The query built by `listPullRequestsHandler`: "is:pr author:@me",
plus "is:open"/"is:closed" exactly when the state is one of those two. -/
def buildSearchQuery (state : String) : String :=
  let queryParts : List String := ["is:pr", "author:@me"]
  let queryParts :=
    if state = "open" ∨ state = "closed" then queryParts ++ ["is:" ++ state]
    else queryParts
  String.intercalate " " queryParts

/-- One line of the search-result listing:
"- [State: %s] %s\n  %s\n" with state, title, HTML URL. -/
def issueLine (i : Issue) : String :=
  "- [State: " ++ i.state ++ "] " ++ i.title ++ "\n  " ++ i.htmlURL ++ "\n"

/-- The concatenated per-issue lines of the search-result listing. -/
def issuesText (issues : List Issue) : String :=
  String.join (issues.map issueLine)

/-- The success header of `listPullRequestsHandler`:
"Found %d pull requests (state: %s):\n\n" with the response's total. -/
def prFoundHeader (total : Nat) (state : String) : String :=
  "Found " ++ toString total ++ " pull requests (state: " ++ state ++ "):\n\n"

/-- listPullRequestsHandler, with the REST search call abstracted as
`searchIssues` (applied to the built query and the options literal).
Returns the Go pair (result, error). -/
def listPullRequestsHandler (req : CallToolRequest)
    (searchIssues : String → SearchOptions → SearchOutcome) :
    CallToolResult × Option String :=
  let state := req.getString ("state") ("open")
  let query := buildSearchQuery state
  match searchIssues query listPRSearchOpts with
  | .transportError msg =>
      (NewToolResultError ("Error searching GitHub: " ++ msg), none)
  | .response statusCode status total issues =>
      if statusCode ≠ 200 then
        (NewToolResultError ("GitHub API returned non-200 status: " ++ status), none)
      else if total = 0 then
        (NewToolResultText ("No pull requests found with state: " ++ state), none)
      else
        (NewToolResultText (prFoundHeader total state ++ issuesText issues), none)

/-- The fixed literal of `prURLRegex` before the first capture group. -/
def prURLLiteral : List Char :=
  "https://github.com/".toList

/-- The fixed literal of `prURLRegex` between the second and third capture
group. -/
def pullLiteral : List Char :=
  "/pull/".toList

/-- The character class `[^/]` of `prURLRegex`. -/
def notSlash (c : Char) : Bool :=
  c != '/'

/-- One attempt of `prURLRegex` = `https://github\.com/([^/]+)/([^/]+)/pull/(\d+)`
at a fixed start position (the given suffix of the subject).  The greedy
captures are maximal runs: since `[^/]` cannot match `/` and the groups are
each followed by a literal starting with `/`, the RE2 match at a fixed start
is exactly: the literal, a maximal nonempty non-slash run, `/`, a maximal
nonempty non-slash run, `/pull/`, a maximal nonempty digit run. -/
def matchPRAt (s : List Char) : Option (List Char × List Char × List Char) :=
  if s.take prURLLiteral.length = prURLLiteral then
    let r0 := s.drop prURLLiteral.length
    let owner := r0.takeWhile notSlash
    let r1 := r0.dropWhile notSlash
    if owner = [] then none
    else
      match r1 with
      | '/' :: r2 =>
        let repo := r2.takeWhile notSlash
        let r3 := r2.dropWhile notSlash
        if repo = [] then none
        else if r3.take pullLiteral.length = pullLiteral then
          let r4 := r3.drop pullLiteral.length
          let digits := r4.takeWhile Char.isDigit
          if digits = [] then none else some (owner, repo, digits)
        else none
      | _ => none
  else none

/-- prURLRegex.FindStringSubmatch: the leftmost match of the (unanchored)
pattern, scanning start positions left to right. -/
def findPRMatch : List Char → Option (List Char × List Char × List Char)
  | [] => none
  | c :: rest =>
    match matchPRAt (c :: rest) with
    | some r => some r
    | none => findPRMatch rest

/-- The numeric value of a digit string (most significant digit first). -/
def digitsToNat (ds : List Char) : Nat :=
  ds.foldl (fun acc c => acc * 10 + (c.toNat - '0'.toNat)) 0

/-- strconv.Atoi restricted to the call site (a nonempty all-digit string):
it fails exactly when the value is out of 64-bit `int` range. -/
def atoiDigits (ds : List Char) : Option Nat :=
  if digitsToNat ds < 2 ^ 63 then some (digitsToNat ds) else none

/-- The result of parsePRURL: owner, repo and number, or the Go error
message. -/
inductive ParseResult where
  | ok (owner repo : String) (number : Nat)
  | err (msg : String)
  deriving DecidableEq, Repr

/-- The error message of parsePRURL when the regex does not match. -/
def invalidFormatMsg : String :=
  "invalid PR URL format. Expected: .../owner/repo/pull/123"

/-- parsePRURL: run `prURLRegex.FindStringSubmatch`, fail with the
invalid-format message when there is no match, otherwise Atoi the digit
capture (which can only fail by 64-bit overflow). -/
def parsePRURL (url : String) : ParseResult :=
  match findPRMatch url.toList with
  | none => .err invalidFormatMsg
  | some (owner, repo, digits) =>
    match atoiDigits digits with
    | none => .err ("invalid PR number: " ++ digits.asString)
    | some n => .ok owner.asString repo.asString n

/-- strings.Split(s, "\n") at character-list level: splits at every newline;
the empty input yields one empty field, mirroring Go. -/
def splitLines : List Char → List (List Char)
  | [] => [[]]
  | c :: rest =>
    let r := splitLines rest
    if c = '\n' then [] :: r
    else
      match r with
      | [] => [[c]]
      | l :: ls => (c :: l) :: ls

/-- The lines of a comment body, as strings (strings.Split(body, "\n")). -/
def bodyLines (s : String) : List String :=
  (splitLines s.toList).map List.asString

/-- The text `getUnresolvedCommentsHandler` appends for one comment: when
the body is longer than 200 bytes AND has more than 3 lines, the first 3
lines plus the elision marker; otherwise the full body. -/
def unresolvedCommentText (c : Comment) : String :=
  let fullBody := c.body
  if fullBody.utf8ByteSize > 200 then
    let lines := bodyLines fullBody
    if lines.length > 3 then
      let preview := String.intercalate "\n" (lines.take 3)
      "  - @" ++ c.authorLogin ++ ": " ++ preview ++ "\n… +" ++
        toString (lines.length - 3) ++ " lines (ctrl+o to expand)\n"
    else
      "  - @" ++ c.authorLogin ++ ": " ++ fullBody ++ "\n"
  else
    "  - @" ++ c.authorLogin ++ ": " ++ fullBody ++ "\n"

/-- The output block `getUnresolvedCommentsHandler` appends for one
(unresolved) thread: nothing when there are no comments, otherwise the
header with the first comment's path and line, the per-comment texts, and
the first comment's permalink. -/
def unresolvedThreadBlock (t : ReviewThread) : String :=
  match t.comments with
  | [] => ""
  | firstComment :: _ =>
    "Unresolved Thread on: " ++ firstComment.path ++ " (Line " ++
      toString firstComment.line ++ ")\n" ++
    String.join (t.comments.map unresolvedCommentText) ++
    "  (Thread Link: " ++ firstComment.url ++ ")\n\n"

/-- One iteration of the thread loop of `getUnresolvedCommentsHandler` over
the (builder text, unresolvedCount) pair: resolved threads are skipped;
unresolved threads are counted and their block (possibly empty) appended. -/
def unresolvedStep (acc : String × Nat) (t : ReviewThread) : String × Nat :=
  if !t.isResolved then (acc.1 ++ unresolvedThreadBlock t, acc.2 + 1)
  else acc

/-- The formatting pass of `getUnresolvedCommentsHandler` applied to the
fetched threads: the none-found message when the count is zero, otherwise
the count header plus the builder text. -/
def getUnresolvedCommentsFormat (threads : List ReviewThread) : CallToolResult :=
  let acc := threads.foldl unresolvedStep ("", 0)
  if acc.2 = 0 then
    NewToolResultText ("No unresolved comments found on that PR.")
  else
    NewToolResultText ("Found " ++ toString acc.2 ++
      " unresolved comment threads:\n\n" ++ acc.1)

/-- getUnresolvedCommentsHandler, with the GraphQL query abstracted as
`fetch` (applied to owner, repo and PR number). -/
def getUnresolvedCommentsHandler (req : CallToolRequest)
    (fetch : String → String → Nat → QueryOutcome) :
    CallToolResult × Option String :=
  match req.requireString ("pull_request_url") with
  | none => (NewToolResultError ("Missing required argument: pull_request_url"), none)
  | some prURL =>
    match parsePRURL prURL with
    | .err msg => (NewToolResultError ("Invalid PR URL: " ++ msg), none)
    | .ok owner repo prNumber =>
      match fetch owner repo prNumber with
      | .queryError msg =>
          (NewToolResultError ("GitHub GraphQL query failed: " ++ msg), none)
      | .success threads => (getUnresolvedCommentsFormat threads, none)

/-- The text `getFullCommentsHandler` appends for the i-th comment of a
thread: the reply separator (for i > 0), then author and full body. -/
def fullCommentText (i : Nat) (c : Comment) : String :=
  (if i > 0 then "\n--- Reply ---\n" else "") ++
  "@" ++ c.authorLogin ++ ":\n" ++ c.body ++ "\n"

/-- The output block `getFullCommentsHandler` appends for one kept thread:
nothing when there are no comments, otherwise the status header with the
first comment's path and line, all comments in full, and the first
comment's permalink. -/
def fullThreadBlock (t : ReviewThread) : String :=
  match t.comments with
  | [] => ""
  | firstComment :: _ =>
    let status := if !t.isResolved then "Unresolved" else "Resolved"
    "=== " ++ status ++ " Thread on: " ++ firstComment.path ++ " (Line " ++
      toString firstComment.line ++ ") ===\n" ++
    String.join (t.comments.enum.map (fun p => fullCommentText p.1 p.2)) ++
    "\n(Thread Link: " ++ firstComment.url ++ ")\n\n"

/-- One iteration of the thread loop of `getFullCommentsHandler` over the
(builder text, threadCount) pair: with the filter active, resolved threads
are skipped; every kept thread is counted and its block (possibly empty)
appended. -/
def fullStep (unresolvedOnly : Bool) (acc : String × Nat) (t : ReviewThread) :
    String × Nat :=
  if unresolvedOnly && t.isResolved then acc
  else (acc.1 ++ fullThreadBlock t, acc.2 + 1)

/-- The formatting pass of `getFullCommentsHandler` applied to the fetched
threads: a no-unresolved-comments / no-comments message when the count is
zero (depending on the filter), otherwise the count header (with the
" unresolved" filter note) plus the builder text. -/
def getFullCommentsFormat (unresolvedOnly : Bool) (threads : List ReviewThread) :
    CallToolResult :=
  let acc := threads.foldl (fullStep unresolvedOnly) ("", 0)
  if acc.2 = 0 then
    if unresolvedOnly then
      NewToolResultText ("No unresolved comments found on that PR.")
    else
      NewToolResultText ("No comments found on that PR.")
  else
    let filterText := if unresolvedOnly then " unresolved" else ""
    NewToolResultText ("Found " ++ toString acc.2 ++ filterText ++
      " comment threads:\n\n" ++ acc.1)

/-- getFullCommentsHandler, with the GraphQL query abstracted as `fetch`.
The filter is active exactly when the `unresolved_only` argument (default
"false") is the string "true". -/
def getFullCommentsHandler (req : CallToolRequest)
    (fetch : String → String → Nat → QueryOutcome) :
    CallToolResult × Option String :=
  match req.requireString ("pull_request_url") with
  | none => (NewToolResultError ("Missing required argument: pull_request_url"), none)
  | some prURL =>
    let unresolvedOnlyStr := req.getString ("unresolved_only") ("false")
    let unresolvedOnly := unresolvedOnlyStr == "true"
    match parsePRURL prURL with
    | .err msg => (NewToolResultError ("Invalid PR URL: " ++ msg), none)
    | .ok owner repo prNumber =>
      match fetch owner repo prNumber with
      | .queryError msg =>
          (NewToolResultError ("GitHub GraphQL query failed: " ++ msg), none)
      | .success threads => (getFullCommentsFormat unresolvedOnly threads, none)

/-- The declared type of a tool parameter in the `main.go` registration
(`mcp.WithString` / `mcp.WithBoolean`). -/
inductive ParamType where
  | stringParam
  | booleanParam
  deriving DecidableEq, Repr

/-- One declared tool parameter: name, declared type, and whether
`mcp.Required()` was given.  (Descriptions and enums are not modelled.) -/
structure ToolParam where
  name : String
  type : ParamType
  required : Bool
  deriving DecidableEq, Repr

/-- A registered tool: its name and declared parameters. -/
structure Tool where
  name : String
  params : List ToolParam
  deriving DecidableEq, Repr

/-- The `get_full_comments` tool as registered in `main.go`: a required
string `pull_request_url` and an optional boolean `unresolved_only`. -/
def getFullCommentsTool : Tool :=
  ⟨"get_full_comments",
   [⟨"pull_request_url", .stringParam, true⟩,
    ⟨"unresolved_only", .booleanParam, false⟩]⟩

/-- A declarative description of the strings accepted by `prURLRegex`: the
string contains (unanchored) `https://github.com/`, then a nonempty run
without `/`, then `/`, then a nonempty run without `/`, then `/pull/`,
then a nonempty digit run. -/
def PRDecomposition (url : String) : Prop :=
  ∃ pre owner repo digits post : List Char,
    url.toList = pre ++ prURLLiteral ++ owner ++ ('/' :: repo) ++ pullLiteral ++ digits ++ post ∧
    owner ≠ [] ∧ (∀ a ∈ owner, ¬a = '/') ∧
    repo ≠ [] ∧ (∀ a ∈ repo, ¬a = '/') ∧
    digits ≠ [] ∧ (∀ a ∈ digits, a.isDigit = true)

/-- Modelled from the spec's words (for comparison with `prURLRegex`): a
whole-string match of `scheme://host/owner/repo/pull/(digits)` with
nonempty segments, the scheme free of `:` and `/`, the host, owner and
repo free of `/`, and a nonempty digit run. -/
def specMatchesPRPattern (url : String) : Prop :=
  ∃ scheme host owner repo digits : List Char,
    url.toList = scheme ++ ("://".toList) ++ host ++ ('/' :: owner) ++ ('/' :: repo) ++
      pullLiteral ++ digits ∧
    scheme ≠ [] ∧ (∀ a ∈ scheme, ¬a = ':' ∧ ¬a = '/') ∧
    host ≠ [] ∧ (∀ a ∈ host, ¬a = '/') ∧
    owner ≠ [] ∧ (∀ a ∈ owner, ¬a = '/') ∧
    repo ≠ [] ∧ (∀ a ∈ repo, ¬a = '/') ∧
    digits ≠ [] ∧ (∀ a ∈ digits, a.isDigit = true)

/-- A sample search-result issue, for concrete instances. -/
def issueEx : Issue :=
  ⟨"open", "Fix bug", "https://github.com/o/r/pull/7"⟩

/-- A search fetch returning one issue with server-side total 1, for
concrete instances. -/
def fetchOneIssue : String → SearchOptions → SearchOutcome :=
  fun _ _ => .response 200 ("200 OK") 1 [issueEx]

/-- A 500-byte, 10-line comment body: nine 49-character lines and one
50-character line, joined by 9 newlines. -/
def bodyEx500 : String :=
  String.intercalate "\n"
    (List.replicate 9 (String.mk (List.replicate 49 'x')) ++
     [String.mk (List.replicate 50 'y')])

/-- A sample comment carrying the 500-byte, 10-line body. -/
def commentEx : Comment :=
  ⟨"alice", bodyEx500, "main.go", 5, "https://github.com/o/r/pull/1#c1", "2024-01-01"⟩

/-- A sample short comment, for concrete instances. -/
def commentSmall : Comment :=
  ⟨"bob", "LGTM", "a.go", 2, "https://github.com/o/r/pull/1#c2", "2024-01-02"⟩

/-- takeWhile over an append whose left part satisfies the predicate
throughout. -/
theorem takeWhile_append_all {p : Char → Bool} {l : List Char}
    (h : ∀ a ∈ l, p a = true) (r : List Char) :
    (l ++ r).takeWhile p = l ++ r.takeWhile p := by
  induction l with
  | nil => simp
  | cons c t ih =>
    have hc : p c = true := h c (List.mem_cons_self c t)
    simp [List.takeWhile_cons, hc,
      ih (fun a ha => h a (List.mem_cons_of_mem c ha))]

/-- dropWhile over an append whose left part satisfies the predicate
throughout. -/
theorem dropWhile_append_all {p : Char → Bool} {l : List Char}
    (h : ∀ a ∈ l, p a = true) (r : List Char) :
    (l ++ r).dropWhile p = r.dropWhile p := by
  induction l with
  | nil => simp
  | cons c t ih =>
    have hc : p c = true := h c (List.mem_cons_self c t)
    simp [List.dropWhile_cons, hc,
      ih (fun a ha => h a (List.mem_cons_of_mem c ha))]

/-- A slash-headed list has an empty `notSlash` take. -/
theorem takeWhile_notSlash_slash (l : List Char) :
    ('/' :: l).takeWhile notSlash = [] := by
  simp [List.takeWhile_cons, notSlash]

/-- A slash-headed list is untouched by the `notSlash` drop. -/
theorem dropWhile_notSlash_slash (l : List Char) :
    ('/' :: l).dropWhile notSlash = '/' :: l := by
  simp [List.dropWhile_cons, notSlash]

/-- Elements of a `notSlash` run are not `/`. -/
theorem mem_takeWhile_notSlash {a : Char} {l : List Char}
    (h : a ∈ l.takeWhile notSlash) : ¬a = '/' := by
  have := List.mem_takeWhile_imp h
  simpa [notSlash] using this

/-- Turning the declarative non-slash condition into the Bool predicate. -/
theorem notSlash_of_forall {l : List Char} (h : ∀ a ∈ l, ¬a = '/') :
    ∀ a ∈ l, notSlash a = true := by
  intro a ha
  simp [notSlash, h a ha]

/-- The `pullLiteral` starts with a slash. -/
theorem pullLiteral_cons : pullLiteral = '/' :: "pull/".toList := rfl

/-- The count accumulated by the unresolved-comments thread loop: the
number of unresolved threads, regardless of their comment lists. -/
theorem unresolvedStep_count (ts : List ReviewThread) (acc : String × Nat) :
    (ts.foldl unresolvedStep acc).2 =
      acc.2 + (ts.filter (fun t => !t.isResolved)).length := by
  induction ts generalizing acc with
  | nil => simp
  | cons t ts ih =>
    simp only [List.foldl_cons, List.filter_cons]
    cases hres : t.isResolved with
    | true => simp [unresolvedStep, hres, ih]
    | false =>
      simp only [unresolvedStep, hres, Bool.not_false, if_pos, ih]
      simp [List.length_cons]
      omega

/-- The count accumulated by the full-comments thread loop: the number of
threads passing the resolution filter, regardless of their comment lists. -/
theorem fullStep_count (uo : Bool) (ts : List ReviewThread) (acc : String × Nat) :
    (ts.foldl (fullStep uo) acc).2 =
      acc.2 + (ts.filter (fun t => !(uo && t.isResolved))).length := by
  induction ts generalizing acc with
  | nil => simp
  | cons t ts ih =>
    simp only [List.foldl_cons, List.filter_cons]
    cases hk : uo && t.isResolved with
    | true => simp [fullStep, hk, ih]
    | false =>
      simp only [fullStep, hk, Bool.not_false, if_pos, ih]
      simp [List.length_cons]
      omega

/-- The two parsePRURL error messages are distinct, whatever the digit
capture. -/
theorem invalidNumberMsg_ne (d : String) :
    ¬("invalid PR number: " ++ d) = invalidFormatMsg := by
  intro h
  have h2 : ("invalid PR number: ").data ++ d.data = invalidFormatMsg.data := by
    have := congrArg String.data h
    simpa [String.data_append] using this
  have h3 := congrArg (List.take 12) h2
  rw [List.take_append_of_le_length (by decide)] at h3
  exact absurd h3 (by decide)

/-- A successful attempt of the pattern at a fixed start decomposes the
suffix into the literal, the three captures and a remainder. -/
theorem matchPRAt_sound {s o r d : List Char}
    (h : matchPRAt s = some (o, r, d)) :
    ∃ post, s = prURLLiteral ++ o ++ ('/' :: r) ++ pullLiteral ++ d ++ post ∧
      o ≠ [] ∧ (∀ a ∈ o, ¬a = '/') ∧ r ≠ [] ∧ (∀ a ∈ r, ¬a = '/') ∧
      d ≠ [] ∧ (∀ a ∈ d, a.isDigit = true) := by
  simp only [matchPRAt] at h
  split at h
  case isFalse h1 => exact absurd h (by simp)
  case isTrue h1 =>
  split at h
  case isTrue h2 => exact absurd h (by simp)
  case isFalse h2 =>
  split at h
  case h_2 => exact absurd h (by simp)
  case h_1 r2 heq =>
  split at h
  case isTrue h3 => exact absurd h (by simp)
  case isFalse h3 =>
  split at h
  case isFalse h4 => exact absurd h (by simp)
  case isTrue h4 =>
  split at h
  case isTrue h5 => exact absurd h (by simp)
  case isFalse h5 =>
  simp only [Option.some.injEq, Prod.mk.injEq] at h
  obtain ⟨ho, hr, hd⟩ := h
  have hlenL : prURLLiteral.length = 19 := rfl
  have hlenP : pullLiteral.length = 6 := rfl
  rw [hlenL] at h1 h2 heq ho
  rw [hlenP] at h4 h5 hd
  subst ho hr hd
  refine ⟨((r2.dropWhile notSlash).drop 6).dropWhile Char.isDigit,
    ?_, h2, ?_, h3, ?_, h5, ?_⟩
  · simp only [List.append_assoc, List.cons_append]
    rw [List.takeWhile_append_dropWhile Char.isDigit ((r2.dropWhile notSlash).drop 6)]
    rw [← h4, List.take_append_drop]
    rw [List.takeWhile_append_dropWhile notSlash r2]
    rw [← heq]
    rw [List.takeWhile_append_dropWhile notSlash (s.drop 19)]
    rw [← h1, List.take_append_drop]
  · intro a ha; exact mem_takeWhile_notSlash ha
  · intro a ha; exact mem_takeWhile_notSlash ha
  · intro a ha; exact List.mem_takeWhile_imp ha

/-- The pattern succeeds at any start whose suffix has the decomposed
shape. -/
theorem matchPRAt_complete {o r d post : List Char}
    (ho : o ≠ []) (ho2 : ∀ a ∈ o, ¬a = '/') (hr : r ≠ []) (hr2 : ∀ a ∈ r, ¬a = '/')
    (hd : d ≠ []) (hd2 : ∀ a ∈ d, a.isDigit = true) :
    matchPRAt (prURLLiteral ++ o ++ ('/' :: r) ++ pullLiteral ++ d ++ post) =
      some (o, r, d ++ post.takeWhile Char.isDigit) := by
  have hno := notSlash_of_forall ho2
  have hnr := notSlash_of_forall hr2
  have harg : prURLLiteral ++ o ++ ('/' :: r) ++ pullLiteral ++ d ++ post =
      prURLLiteral ++ (o ++ ('/' :: (r ++ (pullLiteral ++ (d ++ post))))) := by
    simp [List.append_assoc]
  rw [harg]
  have e1 : (prURLLiteral ++ (o ++ ('/' :: (r ++ (pullLiteral ++ (d ++ post)))))).take
      prURLLiteral.length = prURLLiteral := List.take_left _ _
  have e2 : (prURLLiteral ++ (o ++ ('/' :: (r ++ (pullLiteral ++ (d ++ post)))))).drop
      prURLLiteral.length = o ++ ('/' :: (r ++ (pullLiteral ++ (d ++ post)))) :=
    List.drop_left _ _
  have e3 : (o ++ ('/' :: (r ++ (pullLiteral ++ (d ++ post))))).takeWhile notSlash = o := by
    rw [takeWhile_append_all hno, takeWhile_notSlash_slash, List.append_nil]
  have e4 : (o ++ ('/' :: (r ++ (pullLiteral ++ (d ++ post))))).dropWhile notSlash =
      '/' :: (r ++ (pullLiteral ++ (d ++ post))) := by
    rw [dropWhile_append_all hno, dropWhile_notSlash_slash]
  have e5 : (r ++ (pullLiteral ++ (d ++ post))).takeWhile notSlash = r := by
    rw [takeWhile_append_all hnr, pullLiteral_cons, List.cons_append,
      takeWhile_notSlash_slash, List.append_nil]
  have e6 : (r ++ (pullLiteral ++ (d ++ post))).dropWhile notSlash =
      pullLiteral ++ (d ++ post) := by
    rw [dropWhile_append_all hnr, pullLiteral_cons, List.cons_append,
      dropWhile_notSlash_slash, ← List.cons_append, ← pullLiteral_cons]
  have e7 : (pullLiteral ++ (d ++ post)).take pullLiteral.length = pullLiteral :=
    List.take_left _ _
  have e8 : (pullLiteral ++ (d ++ post)).drop pullLiteral.length = d ++ post :=
    List.drop_left _ _
  have e9 : (d ++ post).takeWhile Char.isDigit = d ++ post.takeWhile Char.isDigit :=
    takeWhile_append_all hd2 post
  have e10 : ¬(d ++ post.takeWhile Char.isDigit) = [] := by simp [hd]
  simp only [matchPRAt, e1, e2, e3, e4, e5, e6, e7, e8, e9, eq_self_iff_true, if_true]
  rw [if_neg ho, if_neg hr, if_neg e10]

/-- The scanner succeeds whenever some suffix admits a match. -/
theorem findPRMatch_of_drop {s : List Char} {k : Nat} {res}
    (h : matchPRAt (s.drop k) = some res) :
    ∃ res2, findPRMatch s = some res2 := by
  induction s generalizing k with
  | nil =>
    rw [List.drop_nil] at h
    rw [show matchPRAt [] = none from rfl] at h
    exact Option.noConfusion h
  | cons c t ih =>
    cases k with
    | zero =>
      refine ⟨res, ?_⟩
      rw [List.drop_zero] at h
      simp [findPRMatch, h]
    | succ j =>
      rw [List.drop_succ_cons] at h
      obtain ⟨res2, hres2⟩ := ih h
      simp only [findPRMatch]
      cases hm : matchPRAt (c :: t) with
      | some x => exact ⟨x, rfl⟩
      | none => exact ⟨res2, hres2⟩

/-- A successful scan decomposes the subject: the literal plus the three
captures occur as a contiguous substring. -/
theorem findPRMatch_sound {s o r d : List Char}
    (h : findPRMatch s = some (o, r, d)) :
    ∃ pre post, s = pre ++ prURLLiteral ++ o ++ ('/' :: r) ++ pullLiteral ++ d ++ post ∧
      o ≠ [] ∧ (∀ a ∈ o, ¬a = '/') ∧ r ≠ [] ∧ (∀ a ∈ r, ¬a = '/') ∧
      d ≠ [] ∧ (∀ a ∈ d, a.isDigit = true) := by
  induction s with
  | nil =>
    rw [show findPRMatch [] = none from rfl] at h
    exact Option.noConfusion h
  | cons c t ih =>
    simp only [findPRMatch] at h
    cases hm : matchPRAt (c :: t) with
    | some x =>
      rw [hm] at h
      have hx : some x = some (o, r, d) := h
      have hx2 : x = (o, r, d) := Option.some.inj hx
      subst hx2
      obtain ⟨post, hs, h1, h2, h3, h4, h5, h6⟩ := matchPRAt_sound hm
      exact ⟨[], post, by simpa [List.append_assoc] using hs, h1, h2, h3, h4, h5, h6⟩
    | none =>
      rw [hm] at h
      have h7 : findPRMatch t = some (o, r, d) := h
      obtain ⟨pre, post, hs, h1, h2, h3, h4, h5, h6⟩ := ih h7
      refine ⟨c :: pre, post, ?_, h1, h2, h3, h4, h5, h6⟩
      simp [hs, List.append_assoc]

/-- An unresolved-comments thread block is empty for a commentless
thread. -/
theorem unresolvedThreadBlock_nil {t : ReviewThread} (h : t.comments = []) :
    unresolvedThreadBlock t = "" := by
  unfold unresolvedThreadBlock
  rw [h]

/-- A full-comments thread block is empty for a commentless thread. -/
theorem fullThreadBlock_nil {t : ReviewThread} (h : t.comments = []) :
    fullThreadBlock t = "" := by
  unfold fullThreadBlock
  rw [h]

/-- Evaluation of listPullRequestsHandler on a successful nonempty search
response. -/
theorem listPullRequestsHandler_success (req : CallToolRequest)
    (si : String → SearchOptions → SearchOutcome) (status : String) (total : Nat)
    (issues : List Issue)
    (hresp : si (buildSearchQuery (req.getString ("state") ("open"))) listPRSearchOpts =
      .response 200 status total issues)
    (htotal : 0 < total) :
    listPullRequestsHandler req si =
      (NewToolResultText (prFoundHeader total (req.getString ("state") ("open")) ++
        issuesText issues), none) := by
  have hne : ¬total = 0 := Nat.pos_iff_ne_zero.mp htotal
  simp [listPullRequestsHandler, hresp, hne]

/-- Evaluation of listPullRequestsHandler on a transport error. -/
theorem listPullRequestsHandler_transport (req : CallToolRequest)
    (si : String → SearchOptions → SearchOutcome) (m : String)
    (h : si (buildSearchQuery (req.getString ("state") ("open"))) listPRSearchOpts =
      .transportError m) :
    listPullRequestsHandler req si =
      (NewToolResultError ("Error searching GitHub: " ++ m), none) := by
  simp [listPullRequestsHandler, h]

/-- Evaluation of listPullRequestsHandler on a non-200 response. -/
theorem listPullRequestsHandler_badStatus (req : CallToolRequest)
    (si : String → SearchOptions → SearchOutcome) (code : Nat) (st : String)
    (total : Nat) (issues : List Issue) (hne : ¬code = 200)
    (h : si (buildSearchQuery (req.getString ("state") ("open"))) listPRSearchOpts =
      .response code st total issues) :
    listPullRequestsHandler req si =
      (NewToolResultError ("GitHub API returned non-200 status: " ++ st), none) := by
  simp [listPullRequestsHandler, h, hne]

/-- listPullRequestsHandler always returns a nil Go error. -/
theorem listPullRequestsHandler_err_none (req : CallToolRequest)
    (si : String → SearchOptions → SearchOutcome) :
    (listPullRequestsHandler req si).2 = none := by
  simp only [listPullRequestsHandler]
  split
  · rfl
  · split
    · rfl
    · split <;> rfl

/-- Evaluation of getUnresolvedCommentsHandler on a missing URL argument. -/
theorem getUnresolvedCommentsHandler_missing (req : CallToolRequest)
    (fetch : String → String → Nat → QueryOutcome)
    (h : List.lookup ("pull_request_url") req.args = none) :
    getUnresolvedCommentsHandler req fetch =
      (NewToolResultError ("Missing required argument: pull_request_url"), none) := by
  simp [getUnresolvedCommentsHandler, CallToolRequest.requireString, h]

/-- Evaluation of getUnresolvedCommentsHandler on a malformed URL. -/
theorem getUnresolvedCommentsHandler_badURL (req : CallToolRequest)
    (fetch : String → String → Nat → QueryOutcome) (url m : String)
    (hu : List.lookup ("pull_request_url") req.args = some url)
    (hp : parsePRURL url = .err m) :
    getUnresolvedCommentsHandler req fetch =
      (NewToolResultError ("Invalid PR URL: " ++ m), none) := by
  simp [getUnresolvedCommentsHandler, CallToolRequest.requireString, hu, hp]

/-- Evaluation of getUnresolvedCommentsHandler on a failed GraphQL query. -/
theorem getUnresolvedCommentsHandler_queryError (req : CallToolRequest)
    (fetch : String → String → Nat → QueryOutcome) (url o r : String) (n : Nat)
    (m : String)
    (hu : List.lookup ("pull_request_url") req.args = some url)
    (hp : parsePRURL url = .ok o r n) (hf : fetch o r n = .queryError m) :
    getUnresolvedCommentsHandler req fetch =
      (NewToolResultError ("GitHub GraphQL query failed: " ++ m), none) := by
  simp [getUnresolvedCommentsHandler, CallToolRequest.requireString, hu, hp, hf]

/-- Evaluation of getUnresolvedCommentsHandler on a successful fetch. -/
theorem getUnresolvedCommentsHandler_success (req : CallToolRequest)
    (fetch : String → String → Nat → QueryOutcome) (url o r : String) (n : Nat)
    (ts : List ReviewThread)
    (hu : List.lookup ("pull_request_url") req.args = some url)
    (hp : parsePRURL url = .ok o r n) (hf : fetch o r n = .success ts) :
    getUnresolvedCommentsHandler req fetch = (getUnresolvedCommentsFormat ts, none) := by
  simp [getUnresolvedCommentsHandler, CallToolRequest.requireString, hu, hp, hf]

/-- getUnresolvedCommentsHandler always returns a nil Go error. -/
theorem getUnresolvedCommentsHandler_err_none (req : CallToolRequest)
    (fetch : String → String → Nat → QueryOutcome) :
    (getUnresolvedCommentsHandler req fetch).2 = none := by
  simp only [getUnresolvedCommentsHandler]
  split
  · rfl
  · split
    · rfl
    · split <;> rfl

/-- Evaluation of getFullCommentsHandler on a missing URL argument. -/
theorem getFullCommentsHandler_missing (req : CallToolRequest)
    (fetch : String → String → Nat → QueryOutcome)
    (h : List.lookup ("pull_request_url") req.args = none) :
    getFullCommentsHandler req fetch =
      (NewToolResultError ("Missing required argument: pull_request_url"), none) := by
  simp [getFullCommentsHandler, CallToolRequest.requireString, h]

/-- Evaluation of getFullCommentsHandler on a malformed URL. -/
theorem getFullCommentsHandler_badURL (req : CallToolRequest)
    (fetch : String → String → Nat → QueryOutcome) (url m : String)
    (hu : List.lookup ("pull_request_url") req.args = some url)
    (hp : parsePRURL url = .err m) :
    getFullCommentsHandler req fetch =
      (NewToolResultError ("Invalid PR URL: " ++ m), none) := by
  simp [getFullCommentsHandler, CallToolRequest.requireString, hu, hp]

/-- Evaluation of getFullCommentsHandler on a failed GraphQL query. -/
theorem getFullCommentsHandler_queryError (req : CallToolRequest)
    (fetch : String → String → Nat → QueryOutcome) (url o r : String) (n : Nat)
    (m : String)
    (hu : List.lookup ("pull_request_url") req.args = some url)
    (hp : parsePRURL url = .ok o r n) (hf : fetch o r n = .queryError m) :
    getFullCommentsHandler req fetch =
      (NewToolResultError ("GitHub GraphQL query failed: " ++ m), none) := by
  simp [getFullCommentsHandler, CallToolRequest.requireString, hu, hp, hf]

/-- Evaluation of getFullCommentsHandler on a successful fetch: the filter
flag is the comparison of the `unresolved_only` argument with "true". -/
theorem getFullCommentsHandler_success (req : CallToolRequest)
    (fetch : String → String → Nat → QueryOutcome) (url o r : String) (n : Nat)
    (ts : List ReviewThread)
    (hu : List.lookup ("pull_request_url") req.args = some url)
    (hp : parsePRURL url = .ok o r n) (hf : fetch o r n = .success ts) :
    getFullCommentsHandler req fetch =
      (getFullCommentsFormat (req.getString ("unresolved_only") ("false") == "true") ts,
        none) := by
  simp [getFullCommentsHandler, CallToolRequest.requireString, hu, hp, hf]

/-- getFullCommentsHandler always returns a nil Go error. -/
theorem getFullCommentsHandler_err_none (req : CallToolRequest)
    (fetch : String → String → Nat → QueryOutcome) :
    (getFullCommentsHandler req fetch).2 = none := by
  simp only [getFullCommentsHandler]
  split
  · rfl
  · split
    · rfl
    · split <;> rfl

/-- C1 counterexample: with the same underlying search data (total 1, one
issue), state "bogus" and state "all" yield different formatted result
texts, because the success header echoes the given state string. -/
theorem list_bogus_vs_all_counterexample :
    ¬(listPullRequestsHandler ⟨[("state", "bogus")]⟩ fetchOneIssue).1 =
      (listPullRequestsHandler ⟨[("state", "all")]⟩ fetchOneIssue).1 := by
  decide

/-- C1 (amended): list_pull_requests with state "bogus" builds the same
search query as state "all" (the state clause is omitted), so both see the
same underlying data, and the outputs share the identical issue listing;
they differ only in the state label echoed inside the success header. -/
theorem list_bogus_all_same_query_and_listing :
    buildSearchQuery "bogus" = buildSearchQuery "all" ∧
    ∀ (si : String → SearchOptions → SearchOutcome) (status : String)
      (total : Nat) (issues : List Issue),
      si (buildSearchQuery "all") listPRSearchOpts = .response 200 status total issues →
      0 < total →
      (listPullRequestsHandler ⟨[("state", "bogus")]⟩ si).1 =
        NewToolResultText (prFoundHeader total "bogus" ++ issuesText issues) ∧
      (listPullRequestsHandler ⟨[("state", "all")]⟩ si).1 =
        NewToolResultText (prFoundHeader total "all" ++ issuesText issues) := by
  refine ⟨rfl, ?_⟩
  intro si status total issues hresp htotal
  have hq : buildSearchQuery "bogus" = buildSearchQuery "all" := rfl
  have hg1 : (CallToolRequest.mk [("state", "bogus")]).getString ("state") ("open") =
      "bogus" := rfl
  have hg2 : (CallToolRequest.mk [("state", "all")]).getString ("state") ("open") =
      "all" := rfl
  constructor
  · have := listPullRequestsHandler_success ⟨[("state", "bogus")]⟩ si status total issues
      (by rw [hg1, hq]; exact hresp) htotal
    rw [this, hg1]
  · have := listPullRequestsHandler_success ⟨[("state", "all")]⟩ si status total issues
      (by rw [hg2]; exact hresp) htotal
    rw [this, hg2]

/-- C1 witness: the amended statement at the concrete one-issue fetch. -/
theorem list_bogus_all_same_query_witness :
    (listPullRequestsHandler ⟨[("state", "bogus")]⟩ fetchOneIssue).1 =
      NewToolResultText (prFoundHeader 1 "bogus" ++ issuesText [issueEx]) ∧
    (listPullRequestsHandler ⟨[("state", "all")]⟩ fetchOneIssue).1 =
      NewToolResultText (prFoundHeader 1 "all" ++ issuesText [issueEx]) :=
  list_bogus_all_same_query_and_listing.2 fetchOneIssue ("200 OK") 1 [issueEx] rfl
    (by decide)

/-- C2 counterexample: a single unresolved thread with zero comments is
included in the emitted thread count of both formatters (each reports
"Found 1", not its zero-count message), though no block is emitted. -/
theorem empty_thread_counted_counterexample :
    getUnresolvedCommentsFormat [⟨false, []⟩] =
      NewToolResultText ("Found 1 unresolved comment threads:\n\n") ∧
    ¬getUnresolvedCommentsFormat [⟨false, []⟩] =
      NewToolResultText ("No unresolved comments found on that PR.") ∧
    getFullCommentsFormat false [⟨false, []⟩] =
      NewToolResultText ("Found 1 comment threads:\n\n") ∧
    ¬getFullCommentsFormat false [⟨false, []⟩] =
      NewToolResultText ("No comments found on that PR.") :=
  ⟨by decide, by decide, by decide, by decide⟩

/-- C2 (amended): a thread with zero comments contributes no header and no
output block in either formatter, but it IS included in the emitted thread
count: the count is exactly the number of threads passing the resolution
filter, regardless of their comment lists. -/
theorem empty_threads_no_block_but_counted :
    (∀ t : ReviewThread, t.comments = [] →
      unresolvedThreadBlock t = "" ∧ fullThreadBlock t = "") ∧
    (∀ ts : List ReviewThread,
      (ts.foldl unresolvedStep ("", 0)).2 =
        (ts.filter (fun t => !t.isResolved)).length) ∧
    (∀ (uo : Bool) (ts : List ReviewThread),
      (ts.foldl (fullStep uo) ("", 0)).2 =
        (ts.filter (fun t => !(uo && t.isResolved))).length) := by
  refine ⟨fun t h => ⟨unresolvedThreadBlock_nil h, fullThreadBlock_nil h⟩, ?_, ?_⟩
  · intro ts
    simpa using unresolvedStep_count ts ("", 0)
  · intro uo ts
    simpa using fullStep_count uo ts ("", 0)

/-- C2 witness: the amended statement at a concrete commentless thread. -/
theorem empty_threads_no_block_but_counted_witness :
    unresolvedThreadBlock ⟨false, []⟩ = "" ∧ fullThreadBlock ⟨true, []⟩ = "" ∧
    (([⟨false, []⟩] : List ReviewThread).foldl unresolvedStep ("", 0)).2 =
      (([⟨false, []⟩] : List ReviewThread).filter (fun t => !t.isResolved)).length :=
  ⟨(empty_threads_no_block_but_counted.1 ⟨false, []⟩ rfl).1,
   (empty_threads_no_block_but_counted.1 ⟨true, []⟩ rfl).2,
   empty_threads_no_block_but_counted.2.1 [⟨false, []⟩]⟩

/-- C3 counterexample: a URL of the claimed shape
scheme://host/owner/repo/pull/(digits) with a non-github host is rejected
by parsePRURL with the invalid-format error, because prURLRegex requires
the literal https://github.com/ rather than any scheme://host. -/
theorem parsePRURL_spec_pattern_counterexample :
    specMatchesPRPattern "http://example.com/o/r/pull/1" ∧
    parsePRURL "http://example.com/o/r/pull/1" = .err invalidFormatMsg :=
  ⟨⟨"http".toList, "example.com".toList, ['o'], ['r'], ['1'], by decide⟩, by decide⟩

/-- C3 (amended): parsePRURL fails with the invalid-format error exactly
when the input has no substring matching
https://github.com/([^/]+)/([^/]+)/pull/((digits)+), and every successful
parse returns the captures of such a decomposition, the parsed number
being the value of the digit capture. -/
theorem parsePRURL_characterization (url : String) :
    (parsePRURL url = .err invalidFormatMsg ↔ ¬PRDecomposition url) ∧
    (∀ o r n, parsePRURL url = .ok o r n →
      ∃ pre digits post,
        url.toList = pre ++ prURLLiteral ++ o.toList ++ ('/' :: r.toList) ++
          pullLiteral ++ digits ++ post ∧
        o.toList ≠ [] ∧ (∀ a ∈ o.toList, ¬a = '/') ∧
        r.toList ≠ [] ∧ (∀ a ∈ r.toList, ¬a = '/') ∧
        digits ≠ [] ∧ (∀ a ∈ digits, a.isDigit = true) ∧ n = digitsToNat digits) := by
  constructor
  · constructor
    · intro herr hdec
      obtain ⟨pre, owner, repo, digits, post, hs, h1, h2, h3, h4, h5, h6⟩ := hdec
      have hs2 : url.toList = pre ++
          (prURLLiteral ++ owner ++ ('/' :: repo) ++ pullLiteral ++ digits ++ post) := by
        rw [hs]
        simp [List.append_assoc]
      have hdrop : url.toList.drop pre.length =
          prURLLiteral ++ owner ++ ('/' :: repo) ++ pullLiteral ++ digits ++ post := by
        rw [hs2]
        exact List.drop_left _ _
      have hmatch := @matchPRAt_complete owner repo digits post h1 h2 h3 h4 h5 h6
      rw [← hdrop] at hmatch
      obtain ⟨res2, hfind⟩ := findPRMatch_of_drop hmatch
      obtain ⟨ow, rep, dg⟩ := res2
      simp only [parsePRURL, hfind] at herr
      cases hat : atoiDigits dg with
      | none =>
        rw [hat] at herr
        have herr2 : ParseResult.err ("invalid PR number: " ++ dg.asString) =
            ParseResult.err invalidFormatMsg := herr
        exact invalidNumberMsg_ne dg.asString (ParseResult.err.inj herr2)
      | some m =>
        rw [hat] at herr
        exact ParseResult.noConfusion herr
    · intro hnd
      cases hfind : findPRMatch url.toList with
      | none =>
        have hfind2 : findPRMatch url.data = none := hfind
        simp [parsePRURL, hfind, hfind2]
      | some res =>
        obtain ⟨ow, rep, dg⟩ := res
        obtain ⟨pre, post, hs, h1, h2, h3, h4, h5, h6⟩ := findPRMatch_sound hfind
        exact absurd ⟨pre, ow, rep, dg, post, hs, h1, h2, h3, h4, h5, h6⟩ hnd
  · intro o r n hok
    cases hfind : findPRMatch url.toList with
    | none =>
      simp only [parsePRURL, hfind] at hok
      exact ParseResult.noConfusion hok
    | some res =>
      obtain ⟨ow, rep, dg⟩ := res
      simp only [parsePRURL, hfind] at hok
      cases hat : atoiDigits dg with
      | none =>
        rw [hat] at hok
        exact ParseResult.noConfusion hok
      | some m =>
        rw [hat] at hok
        have hok2 : ParseResult.ok ow.asString rep.asString m = ParseResult.ok o r n := hok
        obtain ⟨ho, hr, hn⟩ := ParseResult.ok.inj hok2
        have hwo : o.toList = ow := by rw [← ho]; exact rfl
        have hwr : r.toList = rep := by rw [← hr]; exact rfl
        have hm : m = digitsToNat dg := by
          simp only [atoiDigits] at hat
          split at hat
          · exact (Option.some.inj hat).symm
          · exact Option.noConfusion hat
        obtain ⟨pre, post, hs, h1, h2, h3, h4, h5, h6⟩ := findPRMatch_sound hfind
        refine ⟨pre, dg, post, ?_, ?_, ?_, ?_, ?_, h5, h6, ?_⟩
        · rw [hwo, hwr]
          exact hs
        · rw [hwo]
          exact h1
        · rw [hwo]
          exact h2
        · rw [hwr]
          exact h3
        · rw [hwr]
          exact h4
        · rw [← hn]
          exact hm

/-- C3 witness: the characterization at a concrete well-formed URL. -/
theorem parsePRURL_characterization_witness :
    parsePRURL "https://github.com/octo/hello/pull/42" = .ok "octo" "hello" 42 ∧
    ∃ pre digits post,
      ("https://github.com/octo/hello/pull/42").toList =
        pre ++ prURLLiteral ++ ("octo").toList ++ ('/' :: ("hello").toList) ++
          pullLiteral ++ digits ++ post ∧
      ("octo").toList ≠ [] ∧ (∀ a ∈ ("octo").toList, ¬a = '/') ∧
      ("hello").toList ≠ [] ∧ (∀ a ∈ ("hello").toList, ¬a = '/') ∧
      digits ≠ [] ∧ (∀ a ∈ digits, a.isDigit = true) ∧ 42 = digitsToNat digits :=
  ⟨by decide,
   (parsePRURL_characterization "https://github.com/octo/hello/pull/42").2
     "octo" "hello" 42 (by decide)⟩

/-- C4: for every comment rendered by the unresolved-comments formatter,
when the body exceeds 200 bytes and splits into more than 3 lines, exactly
the first 3 lines are emitted followed by the elision marker stating the
number of remaining lines; otherwise the full body is emitted unmodified. -/
theorem unresolved_comment_truncation (c : Comment) :
    (c.body.utf8ByteSize > 200 → (bodyLines c.body).length > 3 →
      unresolvedCommentText c =
        "  - @" ++ c.authorLogin ++ ": " ++
          String.intercalate "\n" ((bodyLines c.body).take 3) ++ "\n… +" ++
          toString ((bodyLines c.body).length - 3) ++ " lines (ctrl+o to expand)\n") ∧
    (¬(c.body.utf8ByteSize > 200 ∧ (bodyLines c.body).length > 3) →
      unresolvedCommentText c = "  - @" ++ c.authorLogin ++ ": " ++ c.body ++ "\n") := by
  constructor
  · intro h1 h2
    simp only [unresolvedCommentText]
    rw [if_pos h1, if_pos h2]
  · intro h
    simp only [unresolvedCommentText]
    by_cases h1 : c.body.utf8ByteSize > 200
    · rw [if_pos h1]
      have h2 : ¬(bodyLines c.body).length > 3 := fun h2 => h ⟨h1, h2⟩
      rw [if_neg h2]
    · rw [if_neg h1]

/-- C4 witness: the 500-byte, 10-line body is truncated to its first 3
lines with an elision marker stating 7 remaining lines. -/
theorem unresolved_comment_truncation_witness :
    commentEx.body.utf8ByteSize = 500 ∧ (bodyLines commentEx.body).length = 10 ∧
    unresolvedCommentText commentEx =
      "  - @" ++ commentEx.authorLogin ++ ": " ++
        String.intercalate "\n" ((bodyLines commentEx.body).take 3) ++ "\n… +" ++
        toString ((bodyLines commentEx.body).length - 3) ++
        " lines (ctrl+o to expand)\n" ∧
    toString ((bodyLines commentEx.body).length - 3) = "7" :=
  ⟨by decide, by decide,
   (unresolved_comment_truncation commentEx).1 (by decide) (by decide),
   by decide⟩

/-- C5: appending an unresolved thread with zero comments leaves the
unresolved-comments output text unchanged but increments the reported
unresolved-thread count. -/
theorem unresolved_empty_thread_counted_not_emitted (ts : List ReviewThread)
    (t : ReviewThread) (hres : t.isResolved = false) (hcomm : t.comments = []) :
    ((ts ++ [t]).foldl unresolvedStep ("", 0)).1 = (ts.foldl unresolvedStep ("", 0)).1 ∧
    ((ts ++ [t]).foldl unresolvedStep ("", 0)).2 = (ts.foldl unresolvedStep ("", 0)).2 + 1 ∧
    getUnresolvedCommentsFormat (ts ++ [t]) =
      NewToolResultText ("Found " ++ toString ((ts.foldl unresolvedStep ("", 0)).2 + 1) ++
        " unresolved comment threads:\n\n" ++ (ts.foldl unresolvedStep ("", 0)).1) := by
  have hstep : ∀ acc : String × Nat, unresolvedStep acc t = (acc.1, acc.2 + 1) := by
    intro acc
    simp [unresolvedStep, hres, unresolvedThreadBlock_nil hcomm]
  have hfold : (ts ++ [t]).foldl unresolvedStep ("", 0) =
      ((ts.foldl unresolvedStep ("", 0)).1, (ts.foldl unresolvedStep ("", 0)).2 + 1) := by
    rw [List.foldl_append]
    simp [hstep]
  refine ⟨by rw [hfold], by rw [hfold], ?_⟩
  simp only [getUnresolvedCommentsFormat, hfold]
  simp

/-- C5 witness: a lone commentless unresolved thread yields count 1 and an
empty body. -/
theorem unresolved_empty_thread_counted_witness :
    getUnresolvedCommentsFormat ([] ++ [⟨false, []⟩]) =
      NewToolResultText ("Found " ++
        toString ((([] : List ReviewThread).foldl unresolvedStep ("", 0)).2 + 1) ++
        " unresolved comment threads:\n\n" ++
        (([] : List ReviewThread).foldl unresolvedStep ("", 0)).1) :=
  (unresolved_empty_thread_counted_not_emitted [] ⟨false, []⟩ rfl rfl).2.2

/-- C6: a resolved thread is never emitted nor counted by the
unresolved-comments formatter; the full-comments formatter skips it when
the unresolved-only filter is on, and counts and emits it (with the
"Resolved" header, when it has comments) when the filter is off. -/
theorem resolved_thread_handling (t : ReviewThread) (h : t.isResolved = true) :
    (∀ acc : String × Nat, unresolvedStep acc t = acc) ∧
    (∀ acc : String × Nat, fullStep true acc t = acc) ∧
    (∀ acc : String × Nat, fullStep false acc t = (acc.1 ++ fullThreadBlock t, acc.2 + 1)) ∧
    (∀ c cs, t.comments = c :: cs → fullThreadBlock t =
      "=== Resolved Thread on: " ++ c.path ++ " (Line " ++ toString c.line ++
        ") ===\n" ++
      String.join ((c :: cs).enum.map (fun p => fullCommentText p.1 p.2)) ++
      "\n(Thread Link: " ++ c.url ++ ")\n\n") := by
  refine ⟨?_, ?_, ?_, ?_⟩
  · intro acc
    simp [unresolvedStep, h]
  · intro acc
    simp [fullStep, h]
  · intro acc
    simp [fullStep, h]
  · intro c cs hc
    simp only [fullThreadBlock]
    rw [hc]
    simp [h]

/-- C6 witness: the statement at a concrete resolved one-comment thread. -/
theorem resolved_thread_handling_witness :
    unresolvedStep ("", 0) ⟨true, [commentSmall]⟩ = ("", 0) ∧
    fullStep true ("", 0) ⟨true, [commentSmall]⟩ = ("", 0) ∧
    fullStep false ("", 0) ⟨true, [commentSmall]⟩ =
      ("" ++ fullThreadBlock ⟨true, [commentSmall]⟩, 1) :=
  ⟨(resolved_thread_handling ⟨true, [commentSmall]⟩ rfl).1 ("", 0),
   (resolved_thread_handling ⟨true, [commentSmall]⟩ rfl).2.1 ("", 0),
   (resolved_thread_handling ⟨true, [commentSmall]⟩ rfl).2.2.1 ("", 0)⟩

/-- C7: at a zero emitted-thread count, get_full_comments returns the
"no unresolved comments" message when the filter was active and the
"no comments" message otherwise, and the two messages are distinct. -/
theorem full_comments_zero_count_messages :
    ¬("No unresolved comments found on that PR." =
        ("No comments found on that PR." : String)) ∧
    ∀ (uo : Bool) (ts : List ReviewThread),
      (ts.foldl (fullStep uo) ("", 0)).2 = 0 →
      getFullCommentsFormat uo ts =
        (if uo = true then
          NewToolResultText ("No unresolved comments found on that PR.")
         else NewToolResultText ("No comments found on that PR.")) := by
  refine ⟨by decide, ?_⟩
  intro uo ts h
  simp only [getFullCommentsFormat]
  rw [if_pos h]

/-- C7 witness: the statement with the filter active over a single
resolved thread (count zero). -/
theorem full_comments_zero_count_messages_witness :
    getFullCommentsFormat true [⟨true, [commentSmall]⟩] =
      (if (true : Bool) = true then
        NewToolResultText ("No unresolved comments found on that PR.")
       else NewToolResultText ("No comments found on that PR.")) :=
  full_comments_zero_count_messages.2 true [⟨true, [commentSmall]⟩] (by decide)

/-- C8: every per-request failure (missing pull_request_url argument,
malformed PR URL, REST transport error, non-200 REST status, failed
GraphQL query) yields a structured tool-level error result carrying a
human-readable message, and the Go error value is nil on every path of
all three handlers. -/
theorem recoverable_failures_tool_errors :
    (∀ req si, (listPullRequestsHandler req si).2 = none) ∧
    (∀ req fetch, (getUnresolvedCommentsHandler req fetch).2 = none) ∧
    (∀ req fetch, (getFullCommentsHandler req fetch).2 = none) ∧
    (∀ m, (NewToolResultError m).isError = true) ∧
    (∀ req fetch, List.lookup ("pull_request_url") req.args = none →
      (getUnresolvedCommentsHandler req fetch).1 =
        NewToolResultError ("Missing required argument: pull_request_url") ∧
      (getFullCommentsHandler req fetch).1 =
        NewToolResultError ("Missing required argument: pull_request_url")) ∧
    (∀ req fetch url m, List.lookup ("pull_request_url") req.args = some url →
      parsePRURL url = .err m →
      (getUnresolvedCommentsHandler req fetch).1 =
        NewToolResultError ("Invalid PR URL: " ++ m) ∧
      (getFullCommentsHandler req fetch).1 =
        NewToolResultError ("Invalid PR URL: " ++ m)) ∧
    (∀ req si m,
      si (buildSearchQuery (req.getString ("state") ("open"))) listPRSearchOpts =
        .transportError m →
      (listPullRequestsHandler req si).1 =
        NewToolResultError ("Error searching GitHub: " ++ m)) ∧
    (∀ req si code st total issues, ¬code = 200 →
      si (buildSearchQuery (req.getString ("state") ("open"))) listPRSearchOpts =
        .response code st total issues →
      (listPullRequestsHandler req si).1 =
        NewToolResultError ("GitHub API returned non-200 status: " ++ st)) ∧
    (∀ req fetch url o r n m, List.lookup ("pull_request_url") req.args = some url →
      parsePRURL url = .ok o r n → fetch o r n = .queryError m →
      (getUnresolvedCommentsHandler req fetch).1 =
        NewToolResultError ("GitHub GraphQL query failed: " ++ m) ∧
      (getFullCommentsHandler req fetch).1 =
        NewToolResultError ("GitHub GraphQL query failed: " ++ m)) := by
  refine ⟨listPullRequestsHandler_err_none, getUnresolvedCommentsHandler_err_none,
    getFullCommentsHandler_err_none, fun m => rfl, ?_, ?_, ?_, ?_, ?_⟩
  · intro req fetch h
    exact ⟨by rw [getUnresolvedCommentsHandler_missing req fetch h],
           by rw [getFullCommentsHandler_missing req fetch h]⟩
  · intro req fetch url m hu hp
    exact ⟨by rw [getUnresolvedCommentsHandler_badURL req fetch url m hu hp],
           by rw [getFullCommentsHandler_badURL req fetch url m hu hp]⟩
  · intro req si m h
    rw [listPullRequestsHandler_transport req si m h]
  · intro req si code st total issues hne h
    rw [listPullRequestsHandler_badStatus req si code st total issues hne h]
  · intro req fetch url o r n m hu hp hf
    exact ⟨by rw [getUnresolvedCommentsHandler_queryError req fetch url o r n m hu hp hf],
           by rw [getFullCommentsHandler_queryError req fetch url o r n m hu hp hf]⟩

/-- C8 witness: concrete failing requests for a missing argument, a
malformed URL and a transport error, with nil Go error. -/
theorem recoverable_failures_tool_errors_witness :
    (listPullRequestsHandler ⟨[]⟩ (fun _ _ => .transportError "dial tcp: timeout")).2 =
      none ∧
    (getUnresolvedCommentsHandler ⟨[]⟩ (fun _ _ _ => .success [])).1 =
      NewToolResultError ("Missing required argument: pull_request_url") ∧
    (getFullCommentsHandler ⟨[("pull_request_url", "nope")]⟩
        (fun _ _ _ => .success [])).1 =
      NewToolResultError ("Invalid PR URL: " ++ invalidFormatMsg) ∧
    (listPullRequestsHandler ⟨[]⟩ (fun _ _ => .transportError "dial tcp: timeout")).1 =
      NewToolResultError ("Error searching GitHub: " ++ "dial tcp: timeout") :=
  ⟨recoverable_failures_tool_errors.1 ⟨[]⟩ (fun _ _ => .transportError "dial tcp: timeout"),
   (recoverable_failures_tool_errors.2.2.2.2.1 ⟨[]⟩ (fun _ _ _ => .success []) rfl).1,
   (recoverable_failures_tool_errors.2.2.2.2.2.1 ⟨[("pull_request_url", "nope")]⟩
     (fun _ _ _ => .success []) "nope" invalidFormatMsg rfl (by decide)).2,
   recoverable_failures_tool_errors.2.2.2.2.2.2.1 ⟨[]⟩
     (fun _ _ => .transportError "dial tcp: timeout") "dial tcp: timeout" rfl⟩

/-- C9: the success header of list_pull_requests reports the server-side
total of the search response (with the request capped at 15 per page), not
the number of listed issue lines: with total 100 and a single returned
issue the header shows 100, which differs from the listed count's header. -/
theorem listPR_header_reports_server_total :
    listPRSearchOpts.perPage = 15 ∧
    (∀ (si : String → SearchOptions → SearchOutcome) (state status : String)
       (total : Nat) (issues : List Issue),
      si (buildSearchQuery state) listPRSearchOpts = .response 200 status total issues →
      0 < total →
      (listPullRequestsHandler ⟨[("state", state)]⟩ si).1 =
        NewToolResultText (prFoundHeader total state ++ issuesText issues)) ∧
    (listPullRequestsHandler ⟨[("state", "open")]⟩
        (fun _ _ => .response 200 ("200 OK") 100 [issueEx])).1 =
      NewToolResultText (prFoundHeader 100 "open" ++ issuesText [issueEx]) ∧
    ¬prFoundHeader 100 "open" = prFoundHeader ([issueEx] : List Issue).length "open" := by
  refine ⟨rfl, ?_, ?_, by decide⟩
  · intro si state status total issues hresp htotal
    have hgs : (CallToolRequest.mk [("state", state)]).getString ("state") ("open") =
        state := rfl
    have heval := listPullRequestsHandler_success ⟨[("state", state)]⟩ si status total
      issues (by rw [hgs]; exact hresp) htotal
    rw [heval, hgs]
  · have hgs : (CallToolRequest.mk [("state", "open")]).getString ("state") ("open") =
        "open" := rfl
    have heval := listPullRequestsHandler_success ⟨[("state", "open")]⟩
      (fun _ _ => .response 200 ("200 OK") 100 [issueEx]) ("200 OK") 100 [issueEx]
      rfl (by decide)
    rw [heval, hgs]

/-- C9 witness: the universally quantified part at a concrete response
with total 42. -/
theorem listPR_header_reports_server_total_witness :
    (listPullRequestsHandler ⟨[("state", "closed")]⟩
        (fun _ _ => .response 200 ("200 OK") 42 [issueEx])).1 =
      NewToolResultText (prFoundHeader 42 "closed" ++ issuesText [issueEx]) :=
  listPR_header_reports_server_total.2.1
    (fun _ _ => .response 200 ("200 OK") 42 [issueEx]) "closed" ("200 OK") 42 [issueEx]
    rfl (by decide)

/-- C10: in get_full_comments the unresolved-only filter is active exactly
when the unresolved_only argument is the string "true": any other string
value behaves as the absent argument (the default-false unfiltered
behavior), although the tool registration declares unresolved_only as a
boolean parameter. -/
theorem unresolved_only_exact_string_match :
    getFullCommentsTool.params =
      [⟨"pull_request_url", .stringParam, true⟩,
       ⟨"unresolved_only", .booleanParam, false⟩] ∧
    (∀ (fetch : String → String → Nat → QueryOutcome) (url s : String), ¬s = "true" →
      getFullCommentsHandler
          ⟨[("pull_request_url", url), ("unresolved_only", s)]⟩ fetch =
        getFullCommentsHandler ⟨[("pull_request_url", url)]⟩ fetch) ∧
    (∀ (fetch : String → String → Nat → QueryOutcome) (url o r : String) (n : Nat)
       (ts : List ReviewThread),
      parsePRURL url = .ok o r n → fetch o r n = .success ts →
      getFullCommentsHandler
          ⟨[("pull_request_url", url), ("unresolved_only", "true")]⟩ fetch =
        (getFullCommentsFormat true ts, none) ∧
      getFullCommentsHandler ⟨[("pull_request_url", url)]⟩ fetch =
        (getFullCommentsFormat false ts, none)) := by
  refine ⟨rfl, ?_, ?_⟩
  · intro fetch url s hs
    have hbeq : (s == "true") = false := beq_eq_false_iff_ne.mpr hs
    have h1 : List.lookup ("pull_request_url")
        [("pull_request_url", url), ("unresolved_only", s)] = some url := rfl
    have h2 : List.lookup ("pull_request_url") [("pull_request_url", url)] =
        some url := rfl
    have h3 : List.lookup ("unresolved_only")
        [("pull_request_url", url), ("unresolved_only", s)] = some s := rfl
    have h4 : List.lookup ("unresolved_only") [("pull_request_url", url)] = none := rfl
    have h5 : (("false" : String) == "true") = false := rfl
    simp only [getFullCommentsHandler, CallToolRequest.requireString,
      CallToolRequest.getString, h1, h2, h3, h4, Option.getD_some, Option.getD_none,
      hbeq, h5]
  · intro fetch url o r n ts hp hf
    constructor
    · have heval := getFullCommentsHandler_success
        ⟨[("pull_request_url", url), ("unresolved_only", "true")]⟩ fetch url o r n ts
        rfl hp hf
      rw [heval]
      have hg : (CallToolRequest.mk
          [("pull_request_url", url), ("unresolved_only", "true")]).getString
          ("unresolved_only") ("false") = "true" := rfl
      rw [hg]
      have hb : (("true" : String) == "true") = true := rfl
      rw [hb]
    · have heval := getFullCommentsHandler_success ⟨[("pull_request_url", url)]⟩
        fetch url o r n ts rfl hp hf
      rw [heval]
      have hg : (CallToolRequest.mk [("pull_request_url", url)]).getString
          ("unresolved_only") ("false") = "false" := rfl
      rw [hg]
      have hb : (("false" : String) == "true") = false := rfl
      rw [hb]

/-- C10 witness: the argument "True" behaves as an absent argument. -/
theorem unresolved_only_exact_string_match_witness :
    getFullCommentsHandler
        ⟨[("pull_request_url", "https://github.com/o/r/pull/1"),
          ("unresolved_only", "True")]⟩ (fun _ _ _ => .success []) =
      getFullCommentsHandler
        ⟨[("pull_request_url", "https://github.com/o/r/pull/1")]⟩
        (fun _ _ _ => .success []) :=
  unresolved_only_exact_string_match.2.1 (fun _ _ _ => .success [])
    "https://github.com/o/r/pull/1" "True" (by decide)

end GoGithubMCP
